import Mathlib

/-!
Verification development for the smarttodo repository: a shallow embedding of
the Google Tasks service layer (src/source/api/services/gtasks_service.py),
its two gateway surfaces (src/source/api/main.py for HTTP and
src/source/api/mcp/server.py for tool calls), and the Gmail gateway
(src/mpc_gmail/main.py).  Vendor calls are modelled as state-supplied
functions returning either a payload or an HTTP failure (status, message);
Python exceptions are modelled with the Except monad.
-/

namespace SmartTodo

/-- Model of the Python exceptions this codebase raises or catches.
googleApiError models the service layer raising
Exception("Google API error: " + str(HttpError)); typeError / valueError /
stopIteration / indexError / keyError model the corresponding builtins. -/
inductive PyErr where
  | googleApiError (status : Nat) (msg : String)
  | typeError (msg : String)
  | valueError (msg : String)
  | stopIteration
  | indexError
  | keyError (key : String)
  | authError (msg : String)
deriving DecidableEq, Repr

/-- Model of Python str(exception), used where the code interpolates a caught
exception into a message (f-strings).  str(HttpError) is rendered
canonically as "<HttpError status msg>". -/
def pyErrStr : PyErr → String
  | .googleApiError s m => "Google API error: <HttpError " ++ toString s ++ " " ++ m ++ ">"
  | .typeError m => m
  | .valueError m => m
  | .stopIteration => ""
  | .indexError => "list index out of range"
  | .keyError k => k
  | .authError m => m

/-- Model of Python str.lower (the code only ever lowercases ASCII query and
title text). -/
def pyLower (s : String) : String := String.mk (s.data.map Char.toLower)

/-- Model of the Python substring test `needle in hay`. -/
def pyInStr (needle hay : String) : Bool := decide (needle.data <:+: hay.data)

/-- Model of Python str.replace(needle, repl) for a one-character needle:
every occurrence of the character is replaced. -/
def pyReplaceChar (needle : Char) (repl : List Char) : List Char → List Char
  | [] => []
  | c :: rest => (if c = needle then repl else [c]) ++ pyReplaceChar needle repl rest

/-- Model of Python truthiness filtering on an optional string value:
`x if x else None` (None and the empty string are falsy). -/
def truthyStr : Option String → Option String
  | some s => if s = "" then none else some s
  | none => none

/-- Model of datetime.datetime: a wall-clock timestamp with an optional
fixed UTC offset in minutes. -/
structure PyDatetime where
  year : Nat
  month : Nat
  day : Nat
  hour : Nat
  minute : Nat
  second : Nat
  microsecond : Nat
  tzOffsetMinutes : Option Int
deriving DecidableEq, Repr

def digitVal (c : Char) : Nat := c.toNat - 48

/-- Read exactly n decimal digits, accumulating their value. -/
def parseFixedNat : Nat → Nat → List Char → Option (Nat × List Char)
  | 0, acc, cs => some (acc, cs)
  | n + 1, acc, c :: cs =>
      if c.isDigit then parseFixedNat n (acc * 10 + digitVal c) cs else none
  | _ + 1, _, [] => none

def expectChar (ch : Char) : List Char → Option (List Char)
  | c :: cs => if c = ch then some cs else none
  | [] => none

def isLeapYear (y : Nat) : Bool :=
  y % 4 == 0 && (y % 100 != 0 || y % 400 == 0)

def daysInMonth (y m : Nat) : Nat :=
  if m = 2 then (if isLeapYear y then 29 else 28)
  else if m = 4 ∨ m = 6 ∨ m = 9 ∨ m = 11 then 30
  else 31

/-- Parse the date prefix YYYY-MM-DD with calendar validation. -/
def parseDate (cs : List Char) : Option ((Nat × Nat × Nat) × List Char) := do
  let (y, cs1) ← parseFixedNat 4 0 cs
  let cs2 ← expectChar '-' cs1
  let (m, cs3) ← parseFixedNat 2 0 cs2
  let cs4 ← expectChar '-' cs3
  let (d, cs5) ← parseFixedNat 2 0 cs4
  if 1 ≤ m ∧ m ≤ 12 ∧ 1 ≤ d ∧ d ≤ daysInMonth y m then
    some ((y, m, d), cs5)
  else none

/-- Scale a fraction field to microseconds; the stdlib grammar this code
relies on takes exactly 3 or 6 fractional digits. -/
def fracToMicro (ds : List Char) : Option Nat :=
  let v := ds.foldl (fun a c => a * 10 + digitVal c) 0
  if ds.length = 3 then some (v * 1000)
  else if ds.length = 6 then some v
  else none

/-- Parse HH:MM[:SS[.fff / .ffffff]]; returns (hour, minute, second,
microsecond) and the unconsumed suffix. -/
def parseHMS (cs : List Char) : Option ((Nat × Nat × Nat × Nat) × List Char) := do
  let (hh, cs1) ← parseFixedNat 2 0 cs
  let cs2 ← expectChar ':' cs1
  let (mm, cs3) ← parseFixedNat 2 0 cs2
  match cs3 with
  | ':' :: cs4 => do
    let (ss, cs5) ← parseFixedNat 2 0 cs4
    match cs5 with
    | '.' :: cs6 => do
      let ds := cs6.takeWhile Char.isDigit
      let rest := cs6.dropWhile Char.isDigit
      let us ← fracToMicro ds
      some ((hh, mm, ss, us), rest)
    | _ => some ((hh, mm, ss, 0), cs5)
  | _ => some ((hh, mm, 0, 0), cs3)

/-- Parse a trailing UTC offset written with an explicit sign, ±HH:MM,
consuming the whole remaining input; yields the offset in minutes. -/
def parseOffsetHM (cs : List Char) : Option Nat := do
  let (oh, cs1) ← parseFixedNat 2 0 cs
  let cs2 ← expectChar ':' cs1
  let (om, cs3) ← parseFixedNat 2 0 cs2
  if cs3.isEmpty ∧ oh < 24 ∧ om < 60 then some (oh * 60 + om) else none

def parseTz (cs : List Char) : Option (Option Int) :=
  match cs with
  | [] => some none
  | '+' :: rest => (parseOffsetHM rest).map (fun v => some (Int.ofNat v))
  | '-' :: rest => (parseOffsetHM rest).map (fun v => some (-(Int.ofNat v)))
  | _ => none

/-- Model of datetime.fromisoformat restricted to the grammar the service
exchanges: YYYY-MM-DD, optionally followed by a one-character separator and
HH:MM[:SS[.fff|.ffffff]][±HH:MM].  A bare Z offset is NOT accepted here
(which is exactly why the source replaces Z with +00:00 before parsing);
failure models the ValueError the stdlib raises. -/
def fromisoformat (s : String) : Option PyDatetime := do
  let ((y, m, d), rest) ← parseDate s.data
  match rest with
  | [] => some ⟨y, m, d, 0, 0, 0, 0, none⟩
  | _sep :: timeChars => do
    let ((hh, mi, ss, us), rest2) ← parseHMS timeChars
    if hh < 24 ∧ mi < 60 ∧ ss < 60 then
      let tz ← parseTz rest2
      some ⟨y, m, d, hh, mi, ss, us, tz⟩
    else none

/-- GoogleTasksService._parse_datetime: None/empty in, None out; strings
with a T are parsed after replacing Z by +00:00; date-only strings are
parsed directly; a parse failure (ValueError) is swallowed into None. -/
def _parse_datetime : Option String → Option PyDatetime
  | none => none
  | some s =>
      if s = "" then none
      else if 'T' ∈ s.data then
        fromisoformat (String.mk (pyReplaceChar 'Z' ("+00:00".data) s.data))
      else fromisoformat s

def isoPad (w n : Nat) : String :=
  let s := toString n
  String.mk (List.replicate (w - s.length) '0') ++ s

/-- Model of datetime.isoformat(): date, T, time; fraction only when the
microsecond field is nonzero; explicit ±HH:MM offset when aware. -/
def isoformat (dt : PyDatetime) : String :=
  isoPad 4 dt.year ++ "-" ++ isoPad 2 dt.month ++ "-" ++ isoPad 2 dt.day ++ "T" ++
  isoPad 2 dt.hour ++ ":" ++ isoPad 2 dt.minute ++ ":" ++ isoPad 2 dt.second ++
  (if dt.microsecond = 0 then "" else "." ++ isoPad 6 dt.microsecond) ++
  (match dt.tzOffsetMinutes with
   | none => ""
   | some off =>
      (if off < 0 then "-" else "+") ++
      isoPad 2 (off.natAbs / 60) ++ ":" ++ isoPad 2 (off.natAbs % 60))

/-- GoogleTasksService._format_datetime: None in, None out, else isoformat. -/
def _format_datetime (dt : Option PyDatetime) : Option String := dt.map isoformat

/-- The due-date handling of the MCP create_task / update_task tools:
datetime.fromisoformat(due.replace("Z", "+00:00")), re-raised as
ValueError("Invalid due date format: " + due) on failure. -/
def mcpParseDue (due : String) : Except PyErr PyDatetime :=
  match fromisoformat (String.mk (pyReplaceChar 'Z' ("+00:00".data) due.data)) with
  | some d => .ok d
  | none => .error (.valueError ("Invalid due date format: " ++ due))

/-! ## Data model (src/source/api/models/schemas.py) -/

/-- TaskStatus enum: the only two values the vendor uses. -/
inductive TaskStatus where
  | needsAction
  | completed
deriving DecidableEq, Repr

def TaskStatus.value : TaskStatus → String
  | .needsAction => "needsAction"
  | .completed => "completed"

/-- One entry of a vendor task links list. -/
structure TaskLink where
  linkType : String
  description : String
  link : String
deriving DecidableEq, Repr

/-- Raw vendor task-list JSON object.  The vendor always assigns an id
(spec data model: identifier is vendor-assigned and immutable), so id is
total; every other field is read with dict.get and may be absent. -/
structure RawTaskList where
  id : String
  title : Option String
  updated : Option String
  selfLink : Option String
  kind : Option String
  etag : Option String
deriving DecidableEq, Repr

/-- Raw vendor task JSON object.  status is typed with the enum because the
vendor only emits needsAction / completed (TaskStatus(...) in
_convert_task would raise on anything else). -/
structure RawTask where
  id : String
  title : Option String
  notes : Option String
  status : Option TaskStatus
  due : Option String
  updated : Option String
  completed : Option String
  parent : Option String
  position : Option String
  hidden : Option Bool
  deleted : Option Bool
  selfLink : Option String
  kind : Option String
  etag : Option String
  links : Option (List TaskLink)
deriving DecidableEq, Repr

/-- Pydantic TaskList response model (field order as declared: the base
title field first, then id, updated, self_link, kind, etag). -/
structure TaskList where
  title : String
  id : String
  updated : Option PyDatetime
  self_link : Option String
  kind : Option String
  etag : Option String
deriving DecidableEq, Repr

/-- Pydantic Task response model. -/
structure Task where
  title : String
  notes : Option String
  due : Option PyDatetime
  id : String
  status : TaskStatus
  updated : Option PyDatetime
  completed : Option PyDatetime
  parent : Option String
  position : Option String
  hidden : Option Bool
  deleted : Option Bool
  self_link : Option String
  kind : Option String
  etag : Option String
  links : Option (List TaskLink)
deriving DecidableEq, Repr

structure TaskListCreate where
  title : String
deriving DecidableEq, Repr

structure TaskListUpdate where
  title : Option String
deriving DecidableEq, Repr

structure TaskCreate where
  title : String
  notes : Option String
  due : Option PyDatetime
  parent : Option String
  previous : Option String
deriving DecidableEq, Repr

structure TaskUpdate where
  title : Option String
  notes : Option String
  due : Option PyDatetime
  status : Option TaskStatus
  parent : Option String
  previous : Option String
deriving DecidableEq, Repr

/-- GoogleTasksService._convert_task_list. -/
def _convert_task_list (d : RawTaskList) : TaskList :=
  { title := d.title.getD ""
    id := d.id
    updated := _parse_datetime d.updated
    self_link := d.selfLink
    kind := d.kind
    etag := d.etag }

/-- GoogleTasksService._convert_task. -/
def _convert_task (d : RawTask) : Task :=
  { title := d.title.getD ""
    notes := d.notes
    due := _parse_datetime d.due
    id := d.id
    status := d.status.getD .needsAction
    updated := _parse_datetime d.updated
    completed := _parse_datetime d.completed
    parent := d.parent
    position := d.position
    hidden := d.hidden
    deleted := d.deleted
    self_link := d.selfLink
    kind := d.kind
    etag := d.etag
    links := d.links }

/-! ## Vendor request shapes sent by the service -/

/-- Body of tasklists().update: {"id": ..., "title"?: ...}. -/
structure TaskListBody where
  id : String
  title : Option String
deriving DecidableEq, Repr

/-- Body of tasks().insert: title always, notes / due only when truthy. -/
structure TaskInsertBody where
  title : String
  notes : Option String
  due : Option String
deriving DecidableEq, Repr

/-- Keyword arguments of tasks().insert beyond tasklist and body. -/
structure TaskInsertParams where
  body : TaskInsertBody
  parent : Option String
  previous : Option String
deriving DecidableEq, Repr

/-- Body of tasks().update: id always, the other keys only when the
corresponding TaskUpdate field is not None. -/
structure TaskUpdateBody where
  id : String
  title : Option String
  notes : Option String
  due : Option String
  status : Option String
deriving DecidableEq, Repr

/-- Optional showCompleted / showHidden keyword arguments of tasks().list. -/
structure TasksListParams where
  showCompleted : Option Bool
  showHidden : Option Bool
deriving DecidableEq, Repr

/-- One vendor-API state: each Google Tasks client call is a function from
its arguments to either a payload or an HttpError (status, message). -/
structure TasksSvcState where
  tasklistsList : Except (Nat × String) (List RawTaskList)
  tasklistsGet : String → Except (Nat × String) RawTaskList
  tasklistsInsert : String → Except (Nat × String) RawTaskList
  tasklistsUpdate : String → TaskListBody → Except (Nat × String) RawTaskList
  tasklistsDelete : String → Except (Nat × String) Unit
  tasksList : String → TasksListParams → Except (Nat × String) (List RawTask)
  tasksGet : String → String → Except (Nat × String) RawTask
  tasksInsert : String → TaskInsertParams → Except (Nat × String) RawTask
  tasksUpdate : String → String → TaskUpdateBody → Except (Nat × String) RawTask
  tasksDelete : String → String → Except (Nat × String) Unit
  tasksClear : String → Except (Nat × String) Unit

/-- The Exception("Google API error: ...") the service raises for a vendor
failure it does not translate to a NotFound signal. -/
def gapiErr (e : Nat × String) : PyErr := .googleApiError e.1 e.2

/-! ## Service operations (src/source/api/services/gtasks_service.py) -/

def get_task_lists (st : TasksSvcState) : Except PyErr (List TaskList) :=
  match st.tasklistsList with
  | .ok items => .ok (items.map _convert_task_list)
  | .error e => .error (gapiErr e)

def get_task_list (st : TasksSvcState) (task_list_id : String) :
    Except PyErr (Option TaskList) :=
  match st.tasklistsGet task_list_id with
  | .ok r => .ok (some (_convert_task_list r))
  | .error e => if e.1 = 404 then .ok none else .error (gapiErr e)

def create_task_list (st : TasksSvcState) (d : TaskListCreate) :
    Except PyErr TaskList :=
  match st.tasklistsInsert d.title with
  | .ok r => .ok (_convert_task_list r)
  | .error e => .error (gapiErr e)

def update_task_list (st : TasksSvcState) (task_list_id : String)
    (d : TaskListUpdate) : Except PyErr (Option TaskList) :=
  match st.tasklistsGet task_list_id with
  | .error e => if e.1 = 404 then .ok none else .error (gapiErr e)
  | .ok _ =>
    match st.tasklistsUpdate task_list_id { id := task_list_id, title := d.title } with
    | .ok r => .ok (some (_convert_task_list r))
    | .error e => if e.1 = 404 then .ok none else .error (gapiErr e)

def delete_task_list (st : TasksSvcState) (task_list_id : String) :
    Except PyErr Bool :=
  match st.tasklistsDelete task_list_id with
  | .ok _ => .ok true
  | .error e => if e.1 = 404 then .ok false else .error (gapiErr e)

def get_tasks (st : TasksSvcState) (task_list_id : String)
    (completed : Option Bool) : Except PyErr (List Task) :=
  let params : TasksListParams :=
    match completed with
    | some true => ⟨some true, none⟩
    | some false => ⟨some false, some false⟩
    | none => ⟨none, none⟩
  match st.tasksList task_list_id params with
  | .ok items => .ok (items.map _convert_task)
  | .error e => .error (gapiErr e)

def get_task (st : TasksSvcState) (task_list_id task_id : String) :
    Except PyErr (Option Task) :=
  match st.tasksGet task_list_id task_id with
  | .ok r => .ok (some (_convert_task r))
  | .error e => if e.1 = 404 then .ok none else .error (gapiErr e)

def create_task (st : TasksSvcState) (task_list_id : String)
    (task_data : TaskCreate) : Except PyErr Task :=
  let body : TaskInsertBody :=
    { title := task_data.title
      notes := truthyStr task_data.notes
      due := _format_datetime task_data.due }
  let params : TaskInsertParams :=
    { body := body
      parent := truthyStr task_data.parent
      previous := truthyStr task_data.previous }
  match st.tasksInsert task_list_id params with
  | .ok r => .ok (_convert_task r)
  | .error e => .error (gapiErr e)

/-- The tasks().update body: id always, other keys only for fields that are
not None in the TaskUpdate. -/
def updateTaskBody (task_id : String) (d : TaskUpdate) : TaskUpdateBody :=
  { id := task_id
    title := d.title
    notes := d.notes
    due := d.due.map isoformat
    status := d.status.map TaskStatus.value }

def update_task (st : TasksSvcState) (task_list_id task_id : String)
    (task_data : TaskUpdate) : Except PyErr (Option Task) :=
  match st.tasksGet task_list_id task_id with
  | .error e => if e.1 = 404 then .ok none else .error (gapiErr e)
  | .ok _ =>
    match st.tasksUpdate task_list_id task_id (updateTaskBody task_id task_data) with
    | .ok r => .ok (some (_convert_task r))
    | .error e => if e.1 = 404 then .ok none else .error (gapiErr e)

def delete_task (st : TasksSvcState) (task_list_id task_id : String) :
    Except PyErr Bool :=
  match st.tasksDelete task_list_id task_id with
  | .ok _ => .ok true
  | .error e => if e.1 = 404 then .ok false else .error (gapiErr e)

/-- complete_task: update with TaskUpdate(status=COMPLETED). -/
def complete_task (st : TasksSvcState) (task_list_id task_id : String) :
    Except PyErr (Option Task) :=
  update_task st task_list_id task_id
    { title := none, notes := none, due := none,
      status := some .completed, parent := none, previous := none }

/-- uncomplete_task: update with TaskUpdate(status=NEEDS_ACTION). -/
def uncomplete_task (st : TasksSvcState) (task_list_id task_id : String) :
    Except PyErr (Option Task) :=
  update_task st task_list_id task_id
    { title := none, notes := none, due := none,
      status := some .needsAction, parent := none, previous := none }

def clear_completed_tasks (st : TasksSvcState) (task_list_id : String) :
    Except PyErr Unit :=
  match st.tasksClear task_list_id with
  | .ok _ => .ok ()
  | .error e => .error (gapiErr e)

/-! ## search_tasks -/

/-- The per-task predicate of search_tasks: the lowercased query occurs in
the lowercased title or the lowercased notes (dict.get defaults ""). -/
def taskMatchesQuery (qLower : String) (r : RawTask) : Bool :=
  pyInStr qLower (pyLower (r.title.getD "")) ||
  pyInStr qLower (pyLower (r.notes.getD ""))

/-- One iteration of the search loop over a task list: tasks().list with
showCompleted and showHidden, filtering by the query; an HttpError on this
list is swallowed (continue) and contributes nothing. -/
def searchListTasks (st : TasksSvcState) (qLower listId : String) : List Task :=
  match st.tasksList listId ⟨some true, some true⟩ with
  | .error _ => []
  | .ok items => (items.filter (taskMatchesQuery qLower)).map _convert_task

/-- search_tasks: with a task_list_id the loop runs over just that id;
otherwise over the ids from tasklists().list, whose failure is the only one
that aborts the search. -/
def search_tasks (st : TasksSvcState) (query : String)
    (task_list_id : Option String) : Except PyErr (List Task) :=
  match task_list_id with
  | some lid => .ok (searchListTasks st (pyLower query) lid)
  | none =>
    match st.tasklistsList with
    | .error e => .error (gapiErr e)
    | .ok ls => .ok (ls.flatMap (fun tl => searchListTasks st (pyLower query) tl.id))

/-! ## Normalized JSON bodies and the two gateway surfaces -/

/-- Normalized JSON value: the comparison domain for surface parity. -/
inductive JVal where
  | null
  | str (s : String)
  | jbool (b : Bool)
  | num (n : Int)
  | arr (xs : List JVal)
  | obj (fields : List (String × JVal))

def optStrJson : Option String → JVal
  | some s => .str s
  | none => .null

/-- The pydantic json_encoders entry for datetime: isoformat when present,
null otherwise. -/
def optDtJson : Option PyDatetime → JVal
  | some d => .str (isoformat d)
  | none => .null

/-- Pydantic serialization of the TaskList response model, as produced by
the HTTP route response_model (keys in declaration order). -/
def taskListJson (tl : TaskList) : JVal :=
  .obj [("title", .str tl.title), ("id", .str tl.id),
        ("updated", optDtJson tl.updated),
        ("self_link", optStrJson tl.self_link),
        ("kind", optStrJson tl.kind), ("etag", optStrJson tl.etag)]

/-- dataclasses.asdict applied to a TaskList.  In the source, TaskList is a
pydantic BaseModel (src/source/api/models/schemas.py), not a dataclass, and
src/source/api/mcp/server.py imports asdict from dataclasses: asdict raises
TypeError("asdict() should be called on dataclass instances") for any
argument that is not a dataclass instance, so this call never returns. -/
def asdict_TaskList (_tl : TaskList) : Except PyErr JVal :=
  .error (.typeError "asdict() should be called on dataclass instances")

/-- dataclasses.asdict applied to a Task: same TypeError, Task is also a
pydantic BaseModel, not a dataclass. -/
def asdict_Task (_t : Task) : Except PyErr JVal :=
  .error (.typeError "asdict() should be called on dataclass instances")

/-- HTTP surface GET /task-lists: the service result serialized through the
pydantic response model. -/
def http_get_task_lists (st : TasksSvcState) : Except PyErr JVal :=
  match get_task_lists st with
  | .ok tls => .ok (.arr (tls.map taskListJson))
  | .error e => .error e

/-- MCP tool get_task_lists: [asdict(tl) for tl in task_lists]; the
comprehension applies asdict to each element, so it only succeeds on the
empty list. -/
def mcp_get_task_lists (st : TasksSvcState) : Except PyErr JVal :=
  match get_task_lists st with
  | .error e => .error e
  | .ok tls =>
    match tls.mapM asdict_TaskList with
    | .ok js => .ok (.arr js)
    | .error e => .error e

/-! ## MCP batch tool create_multiple_tasks -/

/-- One element of the tasks argument: a dict with optional title, notes,
due keys. -/
structure BatchItem where
  title : Option String
  notes : Option String
  due : Option String
deriving Repr

/-- The result dict of create_multiple_tasks. -/
structure BatchResult where
  created_tasks : List JVal
  created_count : Nat
  errors : List String
  success : Bool

/-- The body of one loop iteration of create_multiple_tasks (item number
idx, 1-based in messages): missing/empty title and unparsable due are
recorded as errors and skip the item; otherwise the task is created and
asdict(task) is appended — any exception in the iteration, including the
TypeError from asdict on a pydantic Task, is caught and recorded as
"Task idx: str(e)". -/
def batchProcessItem (st : TasksSvcState) (task_list_id : String) (idx : Nat)
    (item : BatchItem) : Except String JVal :=
  let tag := "Task " ++ toString idx ++ ": "
  match truthyStr item.title with
  | none => .error (tag ++ "Missing title")
  | some title =>
    let mkTask : Option PyDatetime → Except String JVal := fun due =>
      match create_task st task_list_id
          { title := title, notes := item.notes, due := due,
            parent := none, previous := none } with
      | .error e => .error (tag ++ pyErrStr e)
      | .ok task =>
        match asdict_Task task with
        | .ok j => .ok j
        | .error e => .error (tag ++ pyErrStr e)
    match truthyStr item.due with
    | some dueStr =>
      match fromisoformat (String.mk (pyReplaceChar 'Z' ("+00:00".data) dueStr.data)) with
      | none => .error (tag ++ "Invalid due date format: " ++ dueStr)
      | some d => mkTask (some d)
    | none => mkTask none

/-- The enumerate loop of create_multiple_tasks, accumulating created task
dicts and error strings in order. -/
def batchLoop (st : TasksSvcState) (task_list_id : String) :
    Nat → List BatchItem → (List JVal × List String)
  | _, [] => ([], [])
  | i, item :: rest =>
    let r := batchProcessItem st task_list_id (i + 1) item
    let (cs, es) := batchLoop st task_list_id (i + 1) rest
    match r with
    | .ok j => (j :: cs, es)
    | .error msg => (cs, msg :: es)

/-- MCP tool create_multiple_tasks. -/
def create_multiple_tasks (st : TasksSvcState) (task_list_id : String)
    (tasks : List BatchItem) : BatchResult :=
  let (created, errs) := batchLoop st task_list_id 0 tasks
  { created_tasks := created
    created_count := created.length
    errors := errs
    success := errs.isEmpty }

/-! ## Gmail gateway (src/mpc_gmail/main.py) -/

structure EmailHeader where
  name : String
  value : String
deriving DecidableEq, Repr

/-- A body dict of a message or part: optional base64url data. -/
structure MessageBody where
  data : Option String
deriving DecidableEq, Repr

structure EmailPart where
  body : MessageBody
deriving DecidableEq, Repr

/-- A vendor message payload: headers, optional parts list, body. -/
structure EmailPayload where
  headers : List EmailHeader
  parts : Option (List EmailPart)
  body : MessageBody
deriving DecidableEq, Repr

/-- A full vendor message: payload plus optional snippet and labelIds. -/
structure RawEmail where
  payload : EmailPayload
  snippet : Option String
  labelIds : Option (List String)
deriving DecidableEq, Repr

/-- An entry of messages().list results: id and threadId. -/
structure MsgRef where
  id : String
  threadId : String
deriving DecidableEq, Repr

/-- Gmail vendor-API state.  auth models get_gmail_service (credential
load/refresh/consent), listMsgs the messages().list call with a query,
listUnread the list call with labelIds=[UNREAD], getMsgFull / getMsgMeta
the two messages().get formats, and b64decode the stdlib
base64.urlsafe_b64decode + utf-8 decode (external library behavior,
supplied by the state). -/
structure GmailState where
  auth : Except PyErr Unit
  listMsgs : String → Nat → Except PyErr (List MsgRef)
  listUnread : Nat → Except PyErr (List MsgRef)
  getMsgFull : String → Except PyErr RawEmail
  getMsgMeta : String → Except PyErr RawEmail
  b64decode : String → Except PyErr String

/-- The generator expression pattern
next(h.value for h in headers if h.name.lower() == name): first matching
header value, if any. -/
def findHeader (headers : List EmailHeader) (name : String) : Option String :=
  (headers.find? (fun h => pyLower h.name == name)).map (fun h => h.value)

/-- next(...) with no default: StopIteration when nothing matches. -/
def pyNext : Option String → Except PyErr String
  | some v => .ok v
  | none => .error .stopIteration

/-- next(..., default): the defaulted lookup used by filter_emails and
unread_emails. -/
def findHeaderD (headers : List EmailHeader) (name dflt : String) : String :=
  (findHeader headers name).getD dflt

structure ReadEmailResult where
  id : String
  subject : String
  from_email : String
  date : String
  body : String
deriving DecidableEq, Repr

/-- Body extraction of read_email: parts[0]["body"].get("data", "") when a
parts key exists (IndexError on an empty parts list), else
payload["body"].get("data", ""). -/
def extractRawBody (p : EmailPayload) : Except PyErr String :=
  match p.parts with
  | some [] => .error .indexError
  | some (p0 :: _) => .ok (p0.body.data.getD "")
  | none => .ok (p.body.data.getD "")

/-- POST /read_email: hard next() lookups for Subject, From and Date, then
body extraction and base64 decoding of a non-empty body. -/
def read_email_endpoint (st : GmailState) (messageId : String) :
    Except PyErr ReadEmailResult := do
  st.auth
  let msg ← st.getMsgFull messageId
  let subject ← pyNext (findHeader msg.payload.headers "subject")
  let fromEmail ← pyNext (findHeader msg.payload.headers "from")
  let date ← pyNext (findHeader msg.payload.headers "date")
  let rawBody ← extractRawBody msg.payload
  let body ← if rawBody = "" then pure "" else st.b64decode rawBody
  pure { id := messageId, subject := subject, from_email := fromEmail,
         date := date, body := body }

def msgRefJson (m : MsgRef) : JVal :=
  .obj [("id", .str m.id), ("threadId", .str m.threadId)]

/-- The include_content loop of search_emails: per message a full fetch and
hard next() lookups for Subject and From only (Date is never read). -/
def searchFetchContent (st : GmailState) : List MsgRef → Except PyErr (List JVal)
  | [] => .ok []
  | m :: rest => do
    let full ← st.getMsgFull m.id
    let subject ← pyNext (findHeader full.payload.headers "subject")
    let fromEmail ← pyNext (findHeader full.payload.headers "from")
    let tail ← searchFetchContent st rest
    pure (JVal.obj [("id", .str m.id), ("subject", .str subject),
                    ("from", .str fromEmail), ("threadId", .str m.threadId)] :: tail)

/-- POST /search_emails. -/
def search_emails_endpoint (st : GmailState) (query : String)
    (maxResults : Nat) (includeContent : Bool) : Except PyErr JVal := do
  st.auth
  let msgs ← st.listMsgs query maxResults
  if includeContent then do
    let full ← searchFetchContent st msgs
    pure (.obj [("messages", .arr full)])
  else
    pure (.obj [("messages", .arr (msgs.map msgRefJson))])

/-- The filter_emails request dict.  A field is none when its key is absent
or null (Python treats both as falsy in the guards), except is_read, whose
guard tests only key presence: the outer layer is key presence, the inner
layer the (possibly null) boolean value. -/
structure FilterReq where
  query : Option String
  from_email : Option String
  subject : Option String
  has_attachment : Option Bool
  date_after : Option String
  date_before : Option String
  is_read : Option (Option Bool)
  label : Option String
  max_results : Option Nat
deriving Repr

/-- One guarded append of filter_emails_endpoint: the fragment g(s) when
the (already truthiness-filtered) value is present, nothing otherwise. -/
def optFragment (o : Option String) (g : String → String) : List String :=
  match o with
  | some s => [g s]
  | none => []

/-- The is_read append of filter_emails_endpoint: guarded by key presence
alone; the value's truthiness only selects the polarity. -/
def presenceFragment (o : Option (Option Bool)) : List String :=
  match o with
  | none => []
  | some v => [if v = some true then "is:read" else "is:unread"]

/-- The query_parts list of filter_emails_endpoint, in source order.  Each
string-valued field contributes when present and truthy (non-empty);
has_attachment when present and truthy; is_read contributes on key
presence alone, choosing is:read for a truthy value and is:unread for any
falsy value (False or null). -/
def filterQueryParts (d : FilterReq) : List String :=
  optFragment (truthyStr d.query) (fun s => s) ++
  optFragment (truthyStr d.from_email) (fun s => "from:" ++ s) ++
  optFragment (truthyStr d.subject) (fun s => "subject:" ++ s) ++
  (if d.has_attachment = some true then ["has:attachment"] else []) ++
  optFragment (truthyStr d.date_after) (fun s => "after:" ++ s) ++
  optFragment (truthyStr d.date_before) (fun s => "before:" ++ s) ++
  presenceFragment d.is_read ++
  optFragment (truthyStr d.label) (fun s => "label:" ++ s)

/-- The upstream query string: " ".join(query_parts). -/
def buildFilterQuery (d : FilterReq) : String :=
  String.intercalate " " (filterQueryParts d)

/-- The metadata-fetch loop of filter_emails: defaulted header lookups, but
a hard email["labelIds"] key access (KeyError when absent). -/
def filterFetchMeta (st : GmailState) : List MsgRef → Except PyErr (List JVal)
  | [] => .ok []
  | m :: rest => do
    let email ← st.getMsgMeta m.id
    let labels ← match email.labelIds with
      | some ls => Except.ok ls
      | none => Except.error (.keyError "labelIds")
    let tail ← filterFetchMeta st rest
    pure (JVal.obj [("id", .str m.id),
      ("subject", .str (findHeaderD email.payload.headers "subject" "No Subject")),
      ("from", .str (findHeaderD email.payload.headers "from" "Unknown")),
      ("date", .str (findHeaderD email.payload.headers "date" "")),
      ("labels", .arr (labels.map JVal.str))] :: tail)

/-- POST /filter_emails: builds the query string and lists upstream with
it. -/
def filter_emails_endpoint (st : GmailState) (d : FilterReq) :
    Except PyErr JVal := do
  st.auth
  let msgs ← st.listMsgs (buildFilterQuery d) (d.max_results.getD 10)
  let entries ← filterFetchMeta st msgs
  pure (.obj [("count", .num (Int.ofNat entries.length)),
              ("messages", .arr entries)])

/-- The body returned by GET /unread_emails: the failure path carries an
error field next to a zeroed count and empty messages list. -/
structure UnreadResult where
  error : Option String
  unread_count : Nat
  messages : List JVal

def unreadEntry (m : MsgRef) (email : RawEmail) : JVal :=
  .obj [("id", .str m.id),
        ("subject", .str (findHeaderD email.payload.headers "subject" "No Subject")),
        ("from", .str (findHeaderD email.payload.headers "from" "Unknown")),
        ("date", .str (findHeaderD email.payload.headers "date" "")),
        ("snippet", .str (email.snippet.getD "")),
        ("labels", .arr ((email.labelIds.getD []).map JVal.str))]

/-- The per-message detail loop of unread_emails (defaulted lookups
everywhere). -/
def fetchUnreadDetails (st : GmailState) : List MsgRef → Except PyErr (List JVal)
  | [] => .ok []
  | m :: rest => do
    let email ← st.getMsgFull m.id
    let tail ← fetchUnreadDetails st rest
    pure (unreadEntry m email :: tail)

/-- The try-block of get_unread_emails_endpoint: auth, list with the UNREAD
label, early empty return, then detail fetches. -/
def unreadBody (st : GmailState) (maxResults : Nat) :
    Except PyErr UnreadResult := do
  st.auth
  let msgs ← st.listUnread maxResults
  if msgs.isEmpty then
    pure { error := none, unread_count := 0, messages := [] }
  else do
    let entries ← fetchUnreadDetails st msgs
    pure { error := none, unread_count := entries.length, messages := entries }

/-- GET /unread_emails: every exception from the try-block is swallowed
into a normal (200-status) body with an error field, unread_count 0 and an
empty messages list; the endpoint itself never raises (it is total). -/
def get_unread_emails_endpoint (st : GmailState) (maxResults : Nat) :
    UnreadResult :=
  match unreadBody st maxResults with
  | .ok r => r
  | .error e => { error := some (pyErrStr e), unread_count := 0, messages := [] }

/-! ## Concrete fixtures -/

def mkRawTask (id : String) (title : Option String) : RawTask :=
  { id := id, title := title, notes := none, status := none, due := none,
    updated := none, completed := none, parent := none, position := none,
    hidden := none, deleted := none, selfLink := none, kind := none,
    etag := none, links := none }

def c3State : TasksSvcState :=
  { tasklistsList := .error (500, "x")
    tasklistsGet := fun _ => .error (500, "x")
    tasklistsInsert := fun _ => .error (500, "x")
    tasklistsUpdate := fun _ _ => .error (500, "x")
    tasklistsDelete := fun _ => .error (500, "x")
    tasksList := fun _ _ => .error (500, "x")
    tasksGet := fun _ _ => .error (500, "x")
    tasksInsert := fun _ p => .ok (mkRawTask ("id-" ++ p.body.title) (some p.body.title))
    tasksUpdate := fun _ _ _ => .error (500, "x")
    tasksDelete := fun _ _ => .error (500, "x")
    tasksClear := fun _ => .error (500, "x") }

/-- A Tasks vendor state whose only task list is Inbox (id l1). -/
def c1State : TasksSvcState :=
  { tasklistsList := .ok [{ id := "l1", title := some "Inbox", updated := none,
                            selfLink := none, kind := none, etag := none }]
    tasklistsGet := fun _ => .error (500, "x")
    tasklistsInsert := fun _ => .error (500, "x")
    tasklistsUpdate := fun _ _ => .error (500, "x")
    tasklistsDelete := fun _ => .error (500, "x")
    tasksList := fun _ _ => .error (500, "x")
    tasksGet := fun _ _ => .error (500, "x")
    tasksInsert := fun _ _ => .error (500, "x")
    tasksUpdate := fun _ _ _ => .error (500, "x")
    tasksDelete := fun _ _ => .error (500, "x")
    tasksClear := fun _ => .error (500, "x") }

/-- A state where every vendor call answers 404. -/
def st404 : TasksSvcState :=
  { tasklistsList := .error (404, "nf")
    tasklistsGet := fun _ => .error (404, "nf")
    tasklistsInsert := fun _ => .error (404, "nf")
    tasklistsUpdate := fun _ _ => .error (404, "nf")
    tasklistsDelete := fun _ => .error (404, "nf")
    tasksList := fun _ _ => .error (404, "nf")
    tasksGet := fun _ _ => .error (404, "nf")
    tasksInsert := fun _ _ => .error (404, "nf")
    tasksUpdate := fun _ _ _ => .error (404, "nf")
    tasksDelete := fun _ _ => .error (404, "nf")
    tasksClear := fun _ => .error (404, "nf") }

/-- A state where every vendor call fails with status 503. -/
def st503 : TasksSvcState :=
  { tasklistsList := .error (503, "backend unavailable")
    tasklistsGet := fun _ => .error (503, "backend unavailable")
    tasklistsInsert := fun _ => .error (503, "backend unavailable")
    tasklistsUpdate := fun _ _ => .error (503, "backend unavailable")
    tasklistsDelete := fun _ => .error (503, "backend unavailable")
    tasksList := fun _ _ => .error (503, "backend unavailable")
    tasksGet := fun _ _ => .error (503, "backend unavailable")
    tasksInsert := fun _ _ => .error (503, "backend unavailable")
    tasksUpdate := fun _ _ _ => .error (503, "backend unavailable")
    tasksDelete := fun _ _ => .error (503, "backend unavailable")
    tasksClear := fun _ => .error (503, "backend unavailable") }

/-- The raw task of the spec scenario: titled "Review demo prep". -/
def demoTaskRaw : RawTask := mkRawTask "t1" (some "Review demo prep")

/-- A state with one task list l1 whose tasks are [demoTaskRaw]. -/
def demoState : TasksSvcState :=
  { tasklistsList := .ok [{ id := "l1", title := some "My list", updated := none,
                            selfLink := none, kind := none, etag := none }]
    tasklistsGet := fun _ => .error (500, "x")
    tasklistsInsert := fun _ => .error (500, "x")
    tasklistsUpdate := fun _ _ => .error (500, "x")
    tasklistsDelete := fun _ => .error (500, "x")
    tasksList := fun _ _ => .ok [demoTaskRaw]
    tasksGet := fun _ _ => .error (500, "x")
    tasksInsert := fun _ _ => .error (500, "x")
    tasksUpdate := fun _ _ _ => .error (500, "x")
    tasksDelete := fun _ _ => .error (500, "x")
    tasksClear := fun _ => .error (500, "x") }

/-- A state with list l1 (accessible, tasks [demoTaskRaw]) and list bad,
whose tasks().list call is denied with 403. -/
def c9State : TasksSvcState :=
  { tasklistsList := .ok [{ id := "l1", title := some "My list", updated := none,
                            selfLink := none, kind := none, etag := none },
                          { id := "bad", title := some "Denied", updated := none,
                            selfLink := none, kind := none, etag := none }]
    tasklistsGet := fun _ => .error (500, "x")
    tasklistsInsert := fun _ => .error (500, "x")
    tasklistsUpdate := fun _ _ => .error (500, "x")
    tasklistsDelete := fun _ => .error (500, "x")
    tasksList := fun lid _ => if lid = "bad" then .error (403, "forbidden")
                              else .ok [demoTaskRaw]
    tasksGet := fun _ _ => .error (500, "x")
    tasksInsert := fun _ _ => .error (500, "x")
    tasksUpdate := fun _ _ _ => .error (500, "x")
    tasksDelete := fun _ _ => .error (500, "x")
    tasksClear := fun _ => .error (500, "x") }

/-- The filter_emails request every key null, as the MCP filter_emails tool
sends when called without arguments (it always includes every key, so
is_read is present with a null value). -/
def c5NullReq : FilterReq :=
  ⟨none, none, none, none, none, none, some none, none, some 10⟩

/-- The fragment mapping exactly as claim C5 words it: the general query
text, from:, subject:, has:attachment when has_attachment is set, after:,
before:, is:read when is_read is TRUE and is:unread when is_read is FALSE,
label:, joined with single spaces, and nothing else. -/
def claimC5Query (d : FilterReq) : String :=
  String.intercalate " "
    ((match truthyStr d.query with | some s => [s] | none => []) ++
     (match truthyStr d.from_email with | some s => ["from:" ++ s] | none => []) ++
     (match truthyStr d.subject with | some s => ["subject:" ++ s] | none => []) ++
     (if d.has_attachment = some true then ["has:attachment"] else []) ++
     (match truthyStr d.date_after with | some s => ["after:" ++ s] | none => []) ++
     (match truthyStr d.date_before with | some s => ["before:" ++ s] | none => []) ++
     (match d.is_read with
      | some (some true) => ["is:read"]
      | some (some false) => ["is:unread"]
      | _ => []) ++
     (match truthyStr d.label with | some s => ["label:" ++ s] | none => []))

/-- The fragment selection of the amended claim C5, stated independently of
the endpoint code: each optional field contributes its fragment exactly
when present and truthy, except is_read, which contributes on key presence
alone — is:read for a truthy value, is:unread for a falsy one. -/
def amendedFilterFragments (d : FilterReq) : List String :=
  List.flatten
    [(truthyStr d.query).toList,
     ((truthyStr d.from_email).map (fun s => "from:" ++ s)).toList,
     ((truthyStr d.subject).map (fun s => "subject:" ++ s)).toList,
     if d.has_attachment = some true then ["has:attachment"] else [],
     ((truthyStr d.date_after).map (fun s => "after:" ++ s)).toList,
     ((truthyStr d.date_before).map (fun s => "before:" ++ s)).toList,
     (d.is_read.map (fun v => if v = some true then "is:read" else "is:unread")).toList,
     ((truthyStr d.label).map (fun s => "label:" ++ s)).toList]

/-- A Gmail state whose credential acquisition fails. -/
def gmailAuthFail : GmailState :=
  { auth := .error (.authError "no credentials")
    listMsgs := fun _ _ => .ok []
    listUnread := fun _ => .ok []
    getMsgFull := fun _ => .error (.keyError "x")
    getMsgMeta := fun _ => .error (.keyError "x")
    b64decode := fun s => .ok s }

/-- A vendor message payload carrying Subject and From headers but no Date
header. -/
def c7NoDateEmail : RawEmail :=
  { payload := { headers := [{ name := "Subject", value := "Hello" },
                             { name := "From", value := "alice@example.com" }]
                 parts := none
                 body := { data := none } }
    snippet := none
    labelIds := none }

/-- A Gmail state serving exactly one message m1 whose payload lacks a
Date header. -/
def c7State : GmailState :=
  { auth := .ok ()
    listMsgs := fun _ _ => .ok [{ id := "m1", threadId := "th1" }]
    listUnread := fun _ => .ok [{ id := "m1", threadId := "th1" }]
    getMsgFull := fun _ => .ok c7NoDateEmail
    getMsgMeta := fun _ => .ok c7NoDateEmail
    b64decode := fun s => .ok s }

/-! ## Claims -/

/-- Auxiliary: flatMap respects pointwise equality on the list members. -/
theorem list_flatMap_congr {α β : Type} (f g : α → List β) :
    ∀ l : List α, (∀ a ∈ l, f a = g a) → l.flatMap f = l.flatMap g := by
  intro l h
  induction l with
  | nil => rfl
  | cons a as ih =>
    rw [List.flatMap_cons, List.flatMap_cons, h a (List.mem_cons_self a as),
        ih (fun x hx => h x (List.mem_cons_of_mem a hx))]

/-- Auxiliary: members on which f is empty can be filtered out of a
flatMap without changing it. -/
theorem list_flatMap_filter_of_empty {α β : Type} (f : α → List β) (p : α → Bool) :
    ∀ l : List α, (∀ a ∈ l, p a = false → f a = []) →
    (l.filter p).flatMap f = l.flatMap f := by
  intro l h
  induction l with
  | nil => rfl
  | cons a as ih =>
    have ih2 := ih (fun x hx hpx => h x (List.mem_cons_of_mem a hx) hpx)
    rw [List.filter_cons]
    cases hp : p a with
    | true => simp only [if_pos]; rw [List.flatMap_cons, List.flatMap_cons, ih2]
    | false =>
      simp only [Bool.false_eq_true, if_neg, not_false_iff]
      rw [List.flatMap_cons, h a (List.mem_cons_self a as) hp, ih2,
          List.nil_append]

/-- Claim C1 (code_bug evidence).  Surface parity fails for the Tasks
adapter: against the same adapter state holding one task list, the HTTP
route GET /task-lists returns the serialized task-list array, while the
MCP tool get_task_lists raises TypeError from dataclasses.asdict, because
TaskList is a pydantic BaseModel and not a dataclass; the two surfaces
produce byte-equivalent bodies only for the degenerate empty result. -/
theorem c1_surface_parity_broken :
    http_get_task_lists c1State =
      .ok (.arr [.obj [("title", .str "Inbox"), ("id", .str "l1"),
                       ("updated", JVal.null), ("self_link", JVal.null),
                       ("kind", JVal.null), ("etag", JVal.null)]]) ∧
    mcp_get_task_lists c1State =
      .error (.typeError "asdict() should be called on dataclass instances") :=
  ⟨rfl, rfl⟩

/-- Claim C2.  For get/update/delete on tasks and task lists: a vendor 404
on any involved call yields the NotFound signal (none for get/update,
false for delete) rather than an error, and a vendor failure with any
other status yields an error carrying that status and message, never a
normal result. -/
theorem c2_notfound_and_upstream_errors (st : TasksSvcState)
    (l t : String) (tld : TaskListUpdate) (tud : TaskUpdate) :
    (∀ m, st.tasksGet l t = .error (404, m) → get_task st l t = .ok none) ∧
    (∀ m, st.tasklistsGet l = .error (404, m) → get_task_list st l = .ok none) ∧
    (∀ m, st.tasksGet l t = .error (404, m) → update_task st l t tud = .ok none) ∧
    (∀ m r, st.tasksGet l t = .ok r →
       st.tasksUpdate l t (updateTaskBody t tud) = .error (404, m) →
       update_task st l t tud = .ok none) ∧
    (∀ m, st.tasklistsGet l = .error (404, m) →
       update_task_list st l tld = .ok none) ∧
    (∀ m r, st.tasklistsGet l = .ok r →
       st.tasklistsUpdate l { id := l, title := tld.title } = .error (404, m) →
       update_task_list st l tld = .ok none) ∧
    (∀ m, st.tasksDelete l t = .error (404, m) → delete_task st l t = .ok false) ∧
    (∀ m, st.tasklistsDelete l = .error (404, m) → delete_task_list st l = .ok false) ∧
    (∀ s m, s ≠ 404 → st.tasksGet l t = .error (s, m) →
       get_task st l t = .error (.googleApiError s m)) ∧
    (∀ s m, s ≠ 404 → st.tasklistsGet l = .error (s, m) →
       get_task_list st l = .error (.googleApiError s m)) ∧
    (∀ s m, s ≠ 404 → st.tasksGet l t = .error (s, m) →
       update_task st l t tud = .error (.googleApiError s m)) ∧
    (∀ s m r, s ≠ 404 → st.tasksGet l t = .ok r →
       st.tasksUpdate l t (updateTaskBody t tud) = .error (s, m) →
       update_task st l t tud = .error (.googleApiError s m)) ∧
    (∀ s m, s ≠ 404 → st.tasksDelete l t = .error (s, m) →
       delete_task st l t = .error (.googleApiError s m)) ∧
    (∀ s m, s ≠ 404 → st.tasklistsDelete l = .error (s, m) →
       delete_task_list st l = .error (.googleApiError s m)) ∧
    (∀ s m, s ≠ 404 → st.tasklistsGet l = .error (s, m) →
       update_task_list st l tld = .error (.googleApiError s m)) ∧
    (∀ s m r, s ≠ 404 → st.tasklistsGet l = .ok r →
       st.tasklistsUpdate l { id := l, title := tld.title } = .error (s, m) →
       update_task_list st l tld = .error (.googleApiError s m)) := by
  refine ⟨?_, ?_, ?_, ?_, ?_, ?_, ?_, ?_, ?_, ?_, ?_, ?_, ?_, ?_, ?_, ?_⟩
  · intro m h; simp [get_task, h]
  · intro m h; simp [get_task_list, h]
  · intro m h; simp [update_task, h]
  · intro m r h1 h2; simp [update_task, h1, h2]
  · intro m h; simp [update_task_list, h]
  · intro m r h1 h2; simp [update_task_list, h1, h2]
  · intro m h; simp [delete_task, h]
  · intro m h; simp [delete_task_list, h]
  · intro s m hs h; simp [get_task, h, hs, gapiErr]
  · intro s m hs h; simp [get_task_list, h, hs, gapiErr]
  · intro s m hs h; simp [update_task, h, hs, gapiErr]
  · intro s m r hs h1 h2; simp [update_task, h1, h2, hs, gapiErr]
  · intro s m hs h; simp [delete_task, h, hs, gapiErr]
  · intro s m hs h; simp [delete_task_list, h, hs, gapiErr]
  · intro s m hs h; simp [update_task_list, h, hs, gapiErr]
  · intro s m r hs h1 h2; simp [update_task_list, h1, h2, hs, gapiErr]

/-- Witness for C2 at concrete states: a 404 get yields none, a 404 delete
yields false, and a 503 get yields the carried upstream error. -/
theorem c2_witness :
    get_task st404 "l" "t" = .ok none ∧
    delete_task st404 "l" "t" = .ok false ∧
    get_task st503 "l" "t" = .error (.googleApiError 503 "backend unavailable") := by
  have h := c2_notfound_and_upstream_errors st404 "l" "t" ⟨none⟩
    ⟨none, none, none, none, none, none⟩
  have h2 := c2_notfound_and_upstream_errors st503 "l" "t" ⟨none⟩
    ⟨none, none, none, none, none, none⟩
  exact ⟨h.1 "nf" rfl, (h.2.2.2.2.2.2.1) "nf" rfl,
         (h2.2.2.2.2.2.2.2.2.1) 503 "backend unavailable" (by decide) rfl⟩

/-- Claim C3 (code_bug evidence).  A batch of three items where item 2
lacks a title: items 1 and 3 are created by the service, but appending
asdict(task) raises TypeError (Task is a pydantic BaseModel, not a
dataclass), which the per-item handler records as an error; the result is
created_count 0 with three errors, not the created_count 2 with one error
that the spec requires. -/
theorem c3_batch_create_asdict_bug :
    create_multiple_tasks c3State "l1"
      [⟨some "Task A", none, none⟩, ⟨none, none, none⟩, ⟨some "Task C", none, none⟩] =
    { created_tasks := []
      created_count := 0
      errors := ["Task 1: asdict() should be called on dataclass instances",
                 "Task 2: Missing title",
                 "Task 3: asdict() should be called on dataclass instances"]
      success := false } := rfl

/-- Claim C10.  complete_task and uncomplete_task are literally update_task
with a status-only TaskUpdate; a 404 on the task get makes both return
none; and the vendor update body they induce names only the task id and
the new status, with title, notes and due absent. -/
theorem c10_complete_is_status_update (st : TasksSvcState) (l t : String) :
    complete_task st l t =
      update_task st l t { title := none, notes := none, due := none,
                           status := some .completed, parent := none,
                           previous := none } ∧
    uncomplete_task st l t =
      update_task st l t { title := none, notes := none, due := none,
                           status := some .needsAction, parent := none,
                           previous := none } ∧
    (∀ m, st.tasksGet l t = .error (404, m) →
       complete_task st l t = .ok none ∧ uncomplete_task st l t = .ok none) ∧
    updateTaskBody t { title := none, notes := none, due := none,
                       status := some .completed, parent := none,
                       previous := none } =
      { id := t, title := none, notes := none, due := none,
        status := some "completed" } ∧
    updateTaskBody t { title := none, notes := none, due := none,
                       status := some .needsAction, parent := none,
                       previous := none } =
      { id := t, title := none, notes := none, due := none,
        status := some "needsAction" } := by
  refine ⟨rfl, rfl, ?_, rfl, rfl⟩
  intro m h
  constructor
  · simp [complete_task, update_task, h]
  · simp [uncomplete_task, update_task, h]

/-- Witness for C10 at a concrete state where the task get answers 404. -/
theorem c10_witness :
    complete_task st404 "l" "t" = .ok none ∧
    uncomplete_task st404 "l" "t" = .ok none :=
  (c10_complete_is_status_update st404 "l" "t").2.2.1 "nf" rfl

/-- Claim C4.  search_tasks is a client-side case-insensitive substring
filter over list results: with a task_list_id it returns exactly the tasks
of that list whose title or notes contains the query (lowercased substring
test), and without one exactly those tasks drawn from every task list. -/
theorem c4_search_is_substring_filter (st : TasksSvcState) (q : String) :
    (∀ lid items, st.tasksList lid ⟨some true, some true⟩ = .ok items →
       search_tasks st q (some lid) =
         .ok ((items.filter (taskMatchesQuery (pyLower q))).map _convert_task)) ∧
    (∀ ls (f : String → List RawTask), st.tasklistsList = .ok ls →
       (∀ tl ∈ ls, st.tasksList tl.id ⟨some true, some true⟩ = .ok (f tl.id)) →
       search_tasks st q none =
         .ok (ls.flatMap (fun tl =>
           ((f tl.id).filter (taskMatchesQuery (pyLower q))).map _convert_task))) := by
  constructor
  · intro lid items h
    simp [search_tasks, searchListTasks, h]
  · intro ls f h1 h2
    simp only [search_tasks, h1]
    congr 1
    exact list_flatMap_congr _ _ ls
      (fun tl htl => by simp [searchListTasks, h2 tl htl])

/-- Witness for C4: search("demo") over a container holding a task titled
"Review demo prep" returns that task; search("zzz") over the same
container returns the empty sequence. -/
theorem c4_witness :
    search_tasks demoState "demo" none = .ok [_convert_task demoTaskRaw] ∧
    search_tasks demoState "zzz" none = .ok [] := by
  constructor
  · have h := (c4_search_is_substring_filter demoState "demo").2
      [{ id := "l1", title := some "My list", updated := none,
         selfLink := none, kind := none, etag := none }]
      (fun _ => [demoTaskRaw]) rfl (fun tl _ => rfl)
    rw [h]; rfl
  · have h := (c4_search_is_substring_filter demoState "zzz").2
      [{ id := "l1", title := some "My list", updated := none,
         selfLink := none, kind := none, etag := none }]
      (fun _ => [demoTaskRaw]) rfl (fun tl _ => rfl)
    rw [h]; rfl

/-- Claim C9.  During search_tasks over several task lists, a vendor error
while listing one task list silently skips that list: the result is an ok
carrying exactly the matches of the remaining lists, with no trace of the
skipped list or its error; only a failure of the tasklists().list call
itself makes the whole search fail. -/
theorem c9_search_skips_failing_lists (st : TasksSvcState) (q : String) :
    (∀ ids bad s m, st.tasklistsList = .ok ids →
       st.tasksList bad ⟨some true, some true⟩ = .error (s, m) →
       search_tasks st q none =
         .ok ((ids.filter (fun tl => tl.id != bad)).flatMap
               (fun tl => searchListTasks st (pyLower q) tl.id))) ∧
    (∀ s m, st.tasklistsList = .error (s, m) →
       search_tasks st q none = .error (.googleApiError s m)) := by
  constructor
  · intro ids bad s m h1 h2
    simp only [search_tasks, h1]
    congr 1
    symm
    apply list_flatMap_filter_of_empty
    intro a _ hpa
    have hid : a.id = bad := by
      simpa using hpa
    rw [hid]
    simp [searchListTasks, h2]
  · intro s m h
    simp [search_tasks, h, gapiErr]

/-- Witness for C9: over the state with an accessible list l1 (one
matching task) and a 403-denied list bad, the search returns just the l1
match; over a state whose tasklists().list itself fails, it errors. -/
theorem c9_witness :
    search_tasks c9State "demo" none = .ok [_convert_task demoTaskRaw] ∧
    search_tasks st503 "demo" none =
      .error (.googleApiError 503 "backend unavailable") := by
  constructor
  · have h := (c9_search_skips_failing_lists c9State "demo").1
      [{ id := "l1", title := some "My list", updated := none,
         selfLink := none, kind := none, etag := none },
       { id := "bad", title := some "Denied", updated := none,
         selfLink := none, kind := none, etag := none }]
      "bad" 403 "forbidden" rfl rfl
    rw [h]; rfl
  · exact (c9_search_skips_failing_lists st503 "demo").2 503
      "backend unavailable" rfl

/-- Counterexample to claim C5 as stated: the request whose only present
field is is_read with a null value — exactly what the MCP filter_emails
tool sends when is_read is not specified — produces the upstream query
"is:unread", although is_read is neither true nor false, while the mapping
the claim describes produces the empty query. -/
theorem c5_counterexample :
    buildFilterQuery c5NullReq = "is:unread" ∧
    claimC5Query c5NullReq = "" ∧
    buildFilterQuery c5NullReq ≠ claimC5Query c5NullReq :=
  ⟨rfl, rfl, by decide⟩

/-- Claim C5 as amended: the upstream query is the space-join of exactly
the fragments of amendedFilterFragments — each string field contributes
when present and truthy, has:attachment when has_attachment is true, and
is:read / is:unread keyed on presence of the is_read key with its
truthiness choosing the polarity. -/
theorem c5_amended_query_building (d : FilterReq) :
    buildFilterQuery d = String.intercalate " " (amendedFilterFragments d) := by
  have hopt : ∀ (o : Option String) (g : String → String),
      optFragment o g = (o.map g).toList := by
    intro o g; cases o <;> rfl
  have hpres : ∀ o : Option (Option Bool),
      presenceFragment o =
        (o.map (fun v => if v = some true then "is:read" else "is:unread")).toList := by
    intro o; cases o <;> rfl
  have hid : ∀ o : Option String, optFragment o (fun s => s) = o.toList := by
    intro o; cases o <;> rfl
  simp only [buildFilterQuery, filterQueryParts, amendedFilterFragments,
             List.flatten, hopt, hpres, hid, Option.map_id]
  congr 1
  simp [List.append_assoc]

/-- Claim C6.  Whatever stage of the unread-emails operation fails —
credential acquisition, the vendor list call, or a per-message fetch — the
endpoint does not propagate the exception (its return type is the plain
body type, not an exceptional one): it returns a body carrying an error
field with the exception message, unread_count 0 and an empty messages
list. -/
theorem c6_unread_swallows_all_failures (st : GmailState) (maxResults : Nat) :
    (∀ e, unreadBody st maxResults = .error e →
       get_unread_emails_endpoint st maxResults =
         { error := some (pyErrStr e), unread_count := 0, messages := [] }) ∧
    (∀ e, st.auth = .error e → unreadBody st maxResults = .error e) ∧
    (∀ e, st.auth = .ok () → st.listUnread maxResults = .error e →
       unreadBody st maxResults = .error e) ∧
    (∀ e m rest, st.auth = .ok () → st.listUnread maxResults = .ok (m :: rest) →
       st.getMsgFull m.id = .error e → unreadBody st maxResults = .error e) := by
  refine ⟨?_, ?_, ?_, ?_⟩
  · intro e h
    simp [get_unread_emails_endpoint, h]
  · intro e h
    simp [unreadBody, h, Bind.bind, Except.bind, Pure.pure, Except.pure]
  · intro e h1 h2
    simp [unreadBody, h1, h2, Bind.bind, Except.bind, Pure.pure, Except.pure]
  · intro e m rest h1 h2 h3
    simp [unreadBody, h1, h2, h3, Bind.bind, Except.bind, Pure.pure, Except.pure, List.isEmpty,
          fetchUnreadDetails]

/-- Witness for C6: with failing credential acquisition the endpoint
returns the error-carrying 200 body. -/
theorem c6_witness :
    get_unread_emails_endpoint gmailAuthFail 10 =
      { error := some "no credentials", unread_count := 0, messages := [] } := by
  have h := c6_unread_swallows_all_failures gmailAuthFail 10
  exact h.1 (.authError "no credentials") (h.2.1 (.authError "no credentials") rfl)

/-- Counterexample to claim C7 as stated: a payload lacking only the Date
header does NOT make search_emails_endpoint with include_content fail — it
returns normally, because that endpoint never reads the Date header (it
reads only Subject and From). -/
theorem c7_counterexample :
    findHeader c7NoDateEmail.payload.headers "date" = none ∧
    search_emails_endpoint c7State "q" 10 true =
      .ok (.obj [("messages", .arr [.obj [("id", .str "m1"),
            ("subject", .str "Hello"), ("from", .str "alice@example.com"),
            ("threadId", .str "th1")]])]) ∧
    read_email_endpoint c7State "m1" = .error .stopIteration :=
  ⟨rfl, rfl, rfl⟩

/-- Claim C7 as amended.  read_email_endpoint fails hard with the lookup
error (StopIteration) whenever any of Subject, From or Date is missing,
and carries all three values when they are present;
search_emails_endpoint with include_content reads only Subject and From:
it fails hard when either of those is missing and succeeds regardless of
the Date header, whose value it never returns. -/
theorem c7_amended_header_lookups (st : GmailState) (mid : String)
    (email : RawEmail) (hauth : st.auth = .ok ())
    (hget : st.getMsgFull mid = .ok email) :
    ((findHeader email.payload.headers "subject" = none ∨
      findHeader email.payload.headers "from" = none ∨
      findHeader email.payload.headers "date" = none) →
       read_email_endpoint st mid = .error .stopIteration) ∧
    (∀ sv fv dv, findHeader email.payload.headers "subject" = some sv →
       findHeader email.payload.headers "from" = some fv →
       findHeader email.payload.headers "date" = some dv →
       extractRawBody email.payload = .ok "" →
       read_email_endpoint st mid =
         .ok { id := mid, subject := sv, from_email := fv, date := dv,
               body := "" }) ∧
    (∀ q mr tid sv fv, st.listMsgs q mr = .ok [{ id := mid, threadId := tid }] →
       findHeader email.payload.headers "subject" = some sv →
       findHeader email.payload.headers "from" = some fv →
       search_emails_endpoint st q mr true =
         .ok (.obj [("messages", .arr [.obj [("id", .str mid),
               ("subject", .str sv), ("from", .str fv),
               ("threadId", .str tid)]])])) ∧
    (∀ q mr tid, st.listMsgs q mr = .ok [{ id := mid, threadId := tid }] →
       (findHeader email.payload.headers "subject" = none ∨
        findHeader email.payload.headers "from" = none) →
       search_emails_endpoint st q mr true = .error .stopIteration) := by
  refine ⟨?_, ?_, ?_, ?_⟩
  · intro hmiss
    rcases hs : findHeader email.payload.headers "subject" with _ | sv
    · simp [read_email_endpoint, hauth, hget, hs, pyNext, Bind.bind, Except.bind, Pure.pure, Except.pure]
    · rcases hf : findHeader email.payload.headers "from" with _ | fv
      · simp [read_email_endpoint, hauth, hget, hs, hf, pyNext, Bind.bind, Except.bind, Pure.pure, Except.pure]
      · rcases hd : findHeader email.payload.headers "date" with _ | dv
        · simp [read_email_endpoint, hauth, hget, hs, hf, hd, pyNext, Bind.bind, Except.bind, Pure.pure, Except.pure, Pure.pure, Except.pure]
        · exfalso
          rcases hmiss with h | h | h
          · rw [h] at hs; exact Option.noConfusion hs
          · rw [h] at hf; exact Option.noConfusion hf
          · rw [h] at hd; exact Option.noConfusion hd
  · intro sv fv dv hs hf hd hb
    simp [read_email_endpoint, hauth, hget, hs, hf, hd, hb, pyNext, Bind.bind, Except.bind, Pure.pure, Except.pure, Pure.pure, Except.pure]
  · intro q mr tid sv fv hlist hs hf
    simp [search_emails_endpoint, hauth, hlist, searchFetchContent, hget,
          hs, hf, pyNext, Bind.bind, Except.bind, Pure.pure, Except.pure]
  · intro q mr tid hlist hmiss
    rcases hs : findHeader email.payload.headers "subject" with _ | sv
    · simp [search_emails_endpoint, hauth, hlist, searchFetchContent, hget,
            hs, pyNext, Bind.bind, Except.bind, Pure.pure, Except.pure]
    · rcases hf : findHeader email.payload.headers "from" with _ | fv
      · simp [search_emails_endpoint, hauth, hlist, searchFetchContent, hget,
              hs, hf, pyNext, Bind.bind, Except.bind, Pure.pure, Except.pure]
      · exfalso
        rcases hmiss with h | h
        · rw [h] at hs; exact Option.noConfusion hs
        · rw [h] at hf; exact Option.noConfusion hf

/-- Witness for C7 amended: on the Date-less payload, read_email fails
with the lookup error while search_emails with include_content returns
the record with subject and from. -/
theorem c7_amended_witness :
    read_email_endpoint c7State "m1" = .error .stopIteration ∧
    search_emails_endpoint c7State "q" 10 true =
      .ok (.obj [("messages", .arr [.obj [("id", .str "m1"),
            ("subject", .str "Hello"), ("from", .str "alice@example.com"),
            ("threadId", .str "th1")]])]) := by
  have h := c7_amended_header_lookups c7State "m1" c7NoDateEmail rfl rfl
  refine ⟨h.1 (Or.inr (Or.inr rfl)), ?_⟩
  exact h.2.2.1 "q" 10 "th1" "Hello" "alice@example.com" rfl rfl rfl

/-- Auxiliary: replacing a character that does not occur is the
identity. -/
theorem pyReplaceChar_not_mem (n : Char) (r : List Char) :
    ∀ l : List Char, n ∉ l → pyReplaceChar n r l = l := by
  intro l h
  induction l with
  | nil => rfl
  | cons c cs ih =>
    have hc : ¬(c = n) := fun e => h (by rw [e]; exact List.mem_cons_self n cs)
    have hcs : n ∉ cs := fun hm => h (List.mem_cons_of_mem c hm)
    simp only [pyReplaceChar, if_neg hc, ih hcs]
    rfl

/-- Auxiliary: on a string whose only occurrence of the needle is the last
character, replacement rewrites exactly that trailing occurrence. -/
theorem pyReplaceChar_append_needle (n : Char) (r : List Char) :
    ∀ l : List Char, n ∉ l → pyReplaceChar n r (l ++ [n]) = l ++ r := by
  intro l h
  induction l with
  | nil => simp [pyReplaceChar]
  | cons c cs ih =>
    have hc : ¬(c = n) := fun e => h (by rw [e]; exact List.mem_cons_self n cs)
    have hcs : n ∉ cs := fun hm => h (List.mem_cons_of_mem c hm)
    simp only [List.cons_append, pyReplaceChar, if_neg hc, List.nil_append]
    exact congrArg (List.cons c) (ih hcs)

/-- Auxiliary: rebuilding a string from its character list is the
identity. -/
theorem string_mk_data (s : String) : String.mk s.data = s := by
  cases s
  rfl

/-- Claim C8.  Lenient inbound date parsing: (i) for every datetime string
t ++ "Z" (with T and no other Z) that is otherwise valid ISO 8601 — i.e.
fromisoformat accepts t ++ "+00:00" — both the service _parse_datetime and
the MCP due-date handling parse it to exactly the value of the
explicit-offset form; (ii) date-only strings (no T) that fromisoformat
accepts also parse; (iii) _parse_datetime returns none — it never raises,
being total by construction — whenever the chosen branch of fromisoformat
fails, for empty strings, and for the missing value. -/
theorem c8_lenient_datetime_parsing :
    (∀ (t : String) (d : PyDatetime), 'Z' ∉ t.data → 'T' ∈ t.data →
       fromisoformat (t ++ "+00:00") = some d →
       _parse_datetime (some (t ++ "Z")) = some d ∧
       _parse_datetime (some (t ++ "+00:00")) = some d ∧
       mcpParseDue (t ++ "Z") = .ok d) ∧
    (∀ (s : String) (d : PyDatetime), 'T' ∉ s.data → s ≠ "" →
       fromisoformat s = some d → _parse_datetime (some s) = some d) ∧
    (∀ s : String, s ≠ "" → 'T' ∈ s.data →
       fromisoformat (String.mk (pyReplaceChar 'Z' ("+00:00".data) s.data)) = none →
       _parse_datetime (some s) = none) ∧
    (∀ s : String, s ≠ "" → 'T' ∉ s.data → fromisoformat s = none →
       _parse_datetime (some s) = none) ∧
    _parse_datetime (some "") = none ∧
    _parse_datetime none = none := by
  refine ⟨?_, ?_, ?_, ?_, rfl, rfl⟩
  · intro t d hZ hT hp
    have hdataZ : (t ++ "Z").data = t.data ++ ['Z'] := String.data_append t "Z"
    have hdataO : (t ++ "+00:00").data = t.data ++ "+00:00".data :=
      String.data_append t "+00:00"
    have hneZ : ¬(t ++ "Z") = "" := by
      intro h
      have h2 : (t ++ "Z").data = [] := by rw [h]
      rw [hdataZ] at h2
      simp at h2
    have hneO : ¬(t ++ "+00:00") = "" := by
      intro h
      have h2 : (t ++ "+00:00").data = [] := by rw [h]
      rw [hdataO] at h2
      simp at h2
    have hTZ : 'T' ∈ (t ++ "Z").data := by
      rw [hdataZ]; exact List.mem_append_left _ hT
    have hTO : 'T' ∈ (t ++ "+00:00").data := by
      rw [hdataO]; exact List.mem_append_left _ hT
    have hZO : 'Z' ∉ (t ++ "+00:00").data := by
      rw [hdataO]
      intro hm
      rcases List.mem_append.mp hm with h | h
      · exact hZ h
      · exact absurd h (by decide)
    refine ⟨?_, ?_, ?_⟩
    · simp only [_parse_datetime, if_neg hneZ, if_pos hTZ]
      rw [hdataZ, pyReplaceChar_append_needle 'Z' ("+00:00".data) t.data hZ,
          ← String.data_append, string_mk_data]
      exact hp
    · simp only [_parse_datetime, if_neg hneO, if_pos hTO]
      rw [pyReplaceChar_not_mem 'Z' ("+00:00".data) ((t ++ "+00:00").data) hZO,
          string_mk_data]
      exact hp
    · simp only [mcpParseDue]
      rw [hdataZ, pyReplaceChar_append_needle 'Z' ("+00:00".data) t.data hZ,
          ← String.data_append, string_mk_data, hp]
  · intro s d hT hne hp
    simp only [_parse_datetime, if_neg hne, if_neg hT]
    exact hp
  · intro s hne hT hp
    simp only [_parse_datetime, if_neg hne, if_pos hT]
    exact hp
  · intro s hne hT hp
    simp only [_parse_datetime, if_neg hne, if_neg hT]
    exact hp

/-- Witness for C8 at concrete strings: a trailing-Z timestamp parses, on
both paths, to the same instant as its explicit-offset form; a date-only
string parses; an unparsable string yields none. -/
theorem c8_witness :
    _parse_datetime (some ("2026-01-05T10:30:00" ++ "Z")) =
      some ⟨2026, 1, 5, 10, 30, 0, 0, some 0⟩ ∧
    _parse_datetime (some ("2026-01-05T10:30:00" ++ "+00:00")) =
      some ⟨2026, 1, 5, 10, 30, 0, 0, some 0⟩ ∧
    mcpParseDue ("2026-01-05T10:30:00" ++ "Z") =
      .ok ⟨2026, 1, 5, 10, 30, 0, 0, some 0⟩ ∧
    _parse_datetime (some "2026-01-05") = some ⟨2026, 1, 5, 0, 0, 0, 0, none⟩ ∧
    _parse_datetime (some "bogus") = none := by
  have hz := c8_lenient_datetime_parsing.1 "2026-01-05T10:30:00"
    ⟨2026, 1, 5, 10, 30, 0, 0, some 0⟩ (by decide) (by decide) rfl
  refine ⟨hz.1, hz.2.1, hz.2.2, ?_, ?_⟩
  · exact c8_lenient_datetime_parsing.2.1 "2026-01-05"
      ⟨2026, 1, 5, 0, 0, 0, 0, none⟩ (by decide) (by decide) rfl
  · exact c8_lenient_datetime_parsing.2.2.2.1 "bogus" (by decide) (by decide) rfl

end SmartTodo
